import Mathlib

/-!
Verification of the image-edit client in `src/App.tsx`.

The file embeds the core of the application shallowly:
the React component state becomes an explicit `AppState` record, the event
handlers (`handleImageUpload`, `handleGenerate`, the reset button, the
generate button with its `disabled` gate) become pure functions from state
and oracle outcomes to state, and the asynchronous request lifecycle is
modelled both atomically (for per-handler claims) and as a labelled step
relation on sessions with an explicit in-flight request (for the
temporal in-flight invariant).

The browser's base64 encoder (`FileReader.readAsDataURL`) and the service
wrapper `editImageWithGemini` (file `services/geminiService` is not part of
the sources) are modelled from the spec, as noted on their definitions.
-/

/-- Modelled from the spec: sextet-to-character table of standard base64
(RFC 4648), the encoding used by the browser data URLs produced by
`FileReader.readAsDataURL`, which is not part of the repository sources. -/
def encodeB64Char (n : Nat) : Char :=
  Char.ofNat
    (if n < 26 then 65 + n
     else if n < 52 then 71 + n
     else if n < 62 then n - 4
     else if n = 62 then 43
     else 47)

/-- Modelled from the spec: character-to-sextet table of standard base64. -/
def decodeB64Char (c : Char) : Option Nat :=
  let n := c.toNat
  if 65 ≤ n ∧ n ≤ 90 then some (n - 65)
  else if 97 ≤ n ∧ n ≤ 122 then some (n - 71)
  else if 48 ≤ n ∧ n ≤ 57 then some (n + 4)
  else if n = 43 then some 62
  else if n = 47 then some 63
  else none

/-- Modelled from the spec: base64 encoding of a byte list, three bytes to
four characters, with `=` padding on a trailing group of one or two bytes. -/
def encodeB64Chars : List Nat → List Char
  | [] => []
  | [b1] =>
      [encodeB64Char (b1 / 4), encodeB64Char (b1 % 4 * 16), '=', '=']
  | [b1, b2] =>
      [encodeB64Char (b1 / 4), encodeB64Char (b1 % 4 * 16 + b2 / 16),
       encodeB64Char (b2 % 16 * 4), '=']
  | b1 :: b2 :: b3 :: rest =>
      encodeB64Char (b1 / 4) :: encodeB64Char (b1 % 4 * 16 + b2 / 16) ::
      encodeB64Char (b2 % 16 * 4 + b3 / 64) :: encodeB64Char (b3 % 64) ::
      encodeB64Chars rest

/-- Modelled from the spec: base64 decoding, four characters to three bytes,
with the two padded final-group shapes. -/
def decodeB64Chars : List Char → Option (List Nat)
  | c1 :: c2 :: c3 :: c4 :: rest =>
      match decodeB64Char c1, decodeB64Char c2 with
      | some s1, some s2 =>
          if c3 = '=' then
            if c4 = '=' then
              if rest = [] then some [s1 * 4 + s2 / 16] else none
            else none
          else
            match decodeB64Char c3 with
            | some s3 =>
                if c4 = '=' then
                  if rest = [] then
                    some [s1 * 4 + s2 / 16, s2 % 16 * 16 + s3 / 4]
                  else none
                else
                  match decodeB64Char c4, decodeB64Chars rest with
                  | some s4, some bs =>
                      some ((s1 * 4 + s2 / 16) :: (s2 % 16 * 16 + s3 / 4) ::
                            (s3 % 4 * 64 + s4) :: bs)
                  | _, _ => none
            | none => none
      | _, _ => none
  | [] => some []
  | _ => none

/-- base64 encoding, packaged on strings. -/
def encodeBase64 (bs : List Nat) : String :=
  String.mk (encodeB64Chars bs)

/-- base64 decoding, packaged on strings. -/
def decodeBase64 (s : String) : Option (List Nat) :=
  decodeB64Chars s.data

theorem decodeB64Char_encodeB64Char_fin :
    ∀ n : Fin 64, decodeB64Char (encodeB64Char n.val) = some n.val := by
  decide

theorem encodeB64Char_ne_pad_fin :
    ∀ n : Fin 64, encodeB64Char n.val ≠ '=' := by
  decide

theorem decodeB64Char_encodeB64Char (n : Nat) (h : n < 64) :
    decodeB64Char (encodeB64Char n) = some n :=
  decodeB64Char_encodeB64Char_fin ⟨n, h⟩

theorem encodeB64Char_ne_pad (n : Nat) (h : n < 64) :
    encodeB64Char n ≠ '=' :=
  encodeB64Char_ne_pad_fin ⟨n, h⟩

theorem decodeB64Chars_encodeB64Chars :
    ∀ bs : List Nat, (∀ b ∈ bs, b < 256) →
      decodeB64Chars (encodeB64Chars bs) = some bs
  | [], _ => rfl
  | [b1], h => by
      have hb1 : b1 < 256 := h b1 (by simp)
      have e1 := decodeB64Char_encodeB64Char (b1 / 4) (by omega)
      have e2 := decodeB64Char_encodeB64Char (b1 % 4 * 16) (by omega)
      simp only [encodeB64Chars, decodeB64Chars, e1, e2, if_pos]
      simp only [Option.some.injEq, List.cons.injEq, and_true]
      omega
  | [b1, b2], h => by
      have hb1 : b1 < 256 := h b1 (by simp)
      have hb2 : b2 < 256 := h b2 (by simp)
      have e1 := decodeB64Char_encodeB64Char (b1 / 4) (by omega)
      have e2 := decodeB64Char_encodeB64Char (b1 % 4 * 16 + b2 / 16) (by omega)
      have e3 := decodeB64Char_encodeB64Char (b2 % 16 * 4) (by omega)
      have n3 := encodeB64Char_ne_pad (b2 % 16 * 4) (by omega)
      simp only [encodeB64Chars, decodeB64Chars, e1, e2, e3, if_neg n3, if_pos]
      simp only [Option.some.injEq, List.cons.injEq, and_true]
      refine ⟨by omega, by omega⟩
  | b1 :: b2 :: b3 :: rest, h => by
      have hb1 : b1 < 256 := h b1 (by simp)
      have hb2 : b2 < 256 := h b2 (by simp)
      have hb3 : b3 < 256 := h b3 (by simp)
      have ih := decodeB64Chars_encodeB64Chars rest (fun b hb => h b (by simp [hb]))
      have e1 := decodeB64Char_encodeB64Char (b1 / 4) (by omega)
      have e2 := decodeB64Char_encodeB64Char (b1 % 4 * 16 + b2 / 16) (by omega)
      have e3 := decodeB64Char_encodeB64Char (b2 % 16 * 4 + b3 / 64) (by omega)
      have e4 := decodeB64Char_encodeB64Char (b3 % 64) (by omega)
      have n3 := encodeB64Char_ne_pad (b2 % 16 * 4 + b3 / 64) (by omega)
      have n4 := encodeB64Char_ne_pad (b3 % 64) (by omega)
      simp only [encodeB64Chars, decodeB64Chars, e1, e2, e3, e4,
        if_neg n3, if_neg n4, ih]
      simp only [Option.some.injEq, List.cons.injEq, and_true]
      refine ⟨by omega, by omega, by omega⟩

/-- A user-selected file: byte content together with its declared media
type, mirroring the `File` object handed to `handleImageUpload` and held in
the `originalFile` state variable. -/
structure FileV where
  content : List Nat
  type : String
deriving DecidableEq, Repr

/-- The component state of `App`: one field per `useState` hook, in source
order (`originalImage`, `originalFile`, `editedImage`, `prompt`,
`isLoading`, `error`). -/
structure AppState where
  originalImage : Option String
  originalFile : Option FileV
  editedImage : Option String
  prompt : String
  isLoading : Bool
  error : Option String
deriving DecidableEq, Repr

/-- The initial component state: every `useState` initializer from the
source (`null`, `null`, `null`, the empty string, `false`, `null`). -/
def initState : AppState :=
  { originalImage := none, originalFile := none, editedImage := none,
    prompt := "", isLoading := false, error := none }

/-- Modelled from the spec: the successful result of `fileToBase64`, which
wraps `FileReader.readAsDataURL` (browser code, not in the sources): a data
URL carrying the declared media type and the base64 encoding of the bytes.
A read failure (`reader.onerror`) is modelled as an oracle outcome at each
call site. -/
def fileToBase64 (f : FileV) : String :=
  "data:" ++ f.type ++ ";base64," ++ encodeBase64 f.content

/-- The error message set by `handleImageUpload` when `fileToBase64`
rejects. -/
def loadFailMsg : String := "Failed to load image. Please try another file."

/-- The error message set by `handleGenerate` in its catch branch. -/
def genFailMsg : String :=
  "Failed to generate image. The model may be overloaded. Please try again later."

/-- `handleImageUpload` from the source: with no file chosen the handler
does nothing; with a file it clears `error` and `editedImage`, stores the
file in `originalFile`, and then either stores the data URL in
`originalImage` (read succeeded) or sets the load-failure `error` message
(read rejected, the `catch` branch). `readOk` is the oracle for the
`FileReader` outcome. -/
def handleImageUpload (s : AppState) (file : Option FileV) (readOk : Bool) :
    AppState :=
  match file with
  | none => s
  | some f =>
      let s1 := { s with error := none, editedImage := none,
                         originalFile := some f }
      if readOk then { s1 with originalImage := some (fileToBase64 f) }
      else { s1 with error := some loadFailMsg }

/-- One call to `editImageWithGemini`, as observed at the service boundary:
the base64 payload, the media type, and the prompt. -/
structure ServiceCall where
  base64Data : String
  mimeType : String
  prompt : String
deriving DecidableEq, Repr

/-- Modelled from the spec: the resolution of the asynchronous body of
`handleGenerate`. The wrapper `editImageWithGemini` lives in
`services/geminiService`, which is not among the sources; per the spec it
is a single opaque call returning either a new encoded image or an error,
so its outcome — together with the possible rejection of `fileToBase64`
before it — is an oracle parameter. -/
inductive GenOutcome where
  | encodeFail
  | serviceFail
  | serviceOk (img : String)
deriving DecidableEq, Repr

/-- The synchronous prefix of `handleGenerate` past its guard:
`setIsLoading(true)`, `setError(null)`, `setEditedImage(null)` — the state
in force while the request is in flight. -/
def startGenerating (s : AppState) : AppState :=
  { s with isLoading := true, error := none, editedImage := none }

/-- The data-URL string `handleGenerate` stores on success:
`data:MIME;base64,PAYLOAD`. -/
def editedDataURL (mimeType img : String) : String :=
  "data:" ++ mimeType ++ ";base64," ++ img

/-- The resolution of a dispatched `handleGenerate` body on state `s`, for
the file `f` captured at dispatch: a `fileToBase64` rejection or a service
failure lands in the `catch` branch (generic error message), success stores
the edited data URL; the `finally` branch clears `isLoading` on every
path. -/
def resolveGenerate (s : AppState) (f : FileV) (o : GenOutcome) : AppState :=
  match o with
  | .encodeFail => { s with error := some genFailMsg, isLoading := false }
  | .serviceFail => { s with error := some genFailMsg, isLoading := false }
  | .serviceOk img =>
      { s with editedImage := some (editedDataURL f.type img),
               isLoading := false }

/-- The calls issued to `editImageWithGemini` by a dispatched
`handleGenerate` body: none when `fileToBase64` rejects first, otherwise
exactly the one call with `base64Data = fileToBase64(file).split(',')[1]`,
the file's media type, and the prompt. -/
def genCalls (s : AppState) (f : FileV) (o : GenOutcome) : List ServiceCall :=
  match o with
  | .encodeFail => []
  | _ => [{ base64Data := ((fileToBase64 f).splitOn ",").getD 1 "",
            mimeType := f.type, prompt := s.prompt }]

/-- `handleGenerate` from the source, run atomically: the guard
`if (!originalFile || !prompt) return;` makes it a no-op when no file is
stored or the prompt is the empty string; past the guard it performs the
synchronous prefix and the resolution for outcome `o`, returning the final
state and the list of service calls issued. -/
def handleGenerate (s : AppState) (o : GenOutcome) :
    AppState × List ServiceCall :=
  match s.originalFile with
  | none => (s, [])
  | some f =>
      if s.prompt = "" then (s, [])
      else (resolveGenerate (startGenerating s) f o, genCalls s f o)

/-- `isGenerateDisabled` from the source:
`isLoading || !prompt || !originalImage`. -/
def isGenerateDisabled (s : AppState) : Bool :=
  s.isLoading || s.prompt = "" || s.originalImage = none

/-- A click on the generate button: the button carries
`disabled={isGenerateDisabled}` and `onClick={handleGenerate}`, so a click
is inert while disabled and runs `handleGenerate` otherwise. -/
def clickGenerate (s : AppState) (o : GenOutcome) :
    AppState × List ServiceCall :=
  if isGenerateDisabled s then (s, []) else handleGenerate s o

/-- The reset button from the source (labelled Start Over): its `onClick`
sets `originalImage`, `originalFile`, `editedImage` and `error` to `null`
and `prompt` to the empty string; `isLoading` is not touched. -/
def handleReset (s : AppState) : AppState :=
  { s with originalImage := none, originalFile := none, editedImage := none,
           prompt := "", error := none }

/-- A session: the component state together with the dispatched
`handleGenerate` request currently awaiting resolution, if any (`pending`
carries the file captured by the handler's closure at dispatch). -/
structure Session where
  ui : AppState
  pending : Option FileV
deriving DecidableEq, Repr

/-- The session at page load: initial component state, nothing in
flight. -/
def initSession : Session :=
  { ui := initState, pending := none }

/-- One user- or resolution-event on a session, with the asynchronous
`handleGenerate` body split at its suspension point: `upload` is available
while the uploader is rendered (no `originalImage`); `editPrompt` while the
textarea is enabled (`disabled={isLoading}`); `reset` always (the Start
Over button has no `disabled` attribute); `dispatch` when the generate
button is enabled and the handler's own guard passes, leaving the
synchronous prefix in force and the request pending; `resolve` delivers an
outcome to the pending request. -/
inductive SStep : Session → Session → Prop where
  | upload (s : Session) (f : FileV) (readOk : Bool) :
      s.ui.originalImage = none →
      SStep s { ui := handleImageUpload s.ui (some f) readOk,
                pending := s.pending }
  | editPrompt (s : Session) (t : String) :
      s.ui.isLoading = false →
      SStep s { ui := { s.ui with prompt := t }, pending := s.pending }
  | reset (s : Session) :
      SStep s { ui := handleReset s.ui, pending := s.pending }
  | dispatch (s : Session) (f : FileV) :
      isGenerateDisabled s.ui = false →
      s.ui.originalFile = some f →
      SStep s { ui := startGenerating s.ui, pending := some f }
  | resolve (s : Session) (f : FileV) (o : GenOutcome) :
      s.pending = some f →
      SStep s { ui := resolveGenerate s.ui f o, pending := none }

/-- The sessions reachable from page load by any sequence of events. -/
inductive Reachable : Session → Prop where
  | init : Reachable initSession
  | step {s s' : Session} : Reachable s → SStep s s' → Reachable s'

/-- A sample selected file: the three bytes of the ASCII text Hi!, declared
as a PNG. -/
def sampleFile : FileV :=
  { content := [72, 105, 33], type := "image/png" }

/-- A sample ready state: `sampleFile` selected and previewed, a non-empty
prompt, nothing in flight, no result, no error. -/
def readyState : AppState :=
  { originalImage := some (fileToBase64 sampleFile),
    originalFile := some sampleFile, editedImage := none,
    prompt := "add a hat", isLoading := false, error := none }

/-- The sample ready state with a request in flight. -/
def loadingState : AppState :=
  { readyState with isLoading := true }

/-- `handleImageUpload` never touches the `isLoading` field. -/
theorem handleImageUpload_isLoading (s : AppState) (file : Option FileV)
    (readOk : Bool) :
    (handleImageUpload s file readOk).isLoading = s.isLoading := by
  cases file <;> cases readOk <;> rfl

/-- Claim C1: invoking Generate while a request is already in flight
(`isLoading` true) is a no-op — the trigger is disabled, so a click changes
no state and issues no call to the external edit service, for every session
state with `isLoading` true. -/
theorem generate_noop_while_loading (s : AppState) (o : GenOutcome)
    (h : s.isLoading = true) : clickGenerate s o = (s, []) := by
  simp [clickGenerate, isGenerateDisabled, h]

/-- Witness for C1 at the concrete loading state. -/
theorem generate_noop_while_loading_witness :
    clickGenerate loadingState .serviceFail = (loadingState, []) :=
  generate_noop_while_loading loadingState .serviceFail rfl

/-- Claim C2: with no file selected or an empty prompt, `handleGenerate` is
a no-op — its guard returns before any state write and before any call to
the external edit service. -/
theorem generate_noop_unready (s : AppState) (o : GenOutcome)
    (h : s.originalFile = none ∨ s.prompt = "") :
    handleGenerate s o = (s, []) := by
  rcases h with h | h
  · simp [handleGenerate, h]
  · cases hf : s.originalFile with
    | none => simp [handleGenerate, hf]
    | some f => simp [handleGenerate, hf, h]

/-- Witness for C2 at a concrete state with an empty prompt. -/
theorem generate_noop_unready_witness :
    handleGenerate { readyState with prompt := "" } .encodeFail =
      ({ readyState with prompt := "" }, []) :=
  generate_noop_unready { readyState with prompt := "" } .encodeFail
    (Or.inr rfl)

/-- Claim C3: starting a generate attempt clears both `error` and
`editedImage` before the external call, and after resolution the two are
mutually exclusive — on service success the result is set and the error
absent, on any failure the error is set and the result absent. -/
theorem generate_result_error_exclusive (s : AppState) (f : FileV)
    (o : GenOutcome) (hf : s.originalFile = some f) (hp : s.prompt ≠ "") :
    ((startGenerating s).error = none ∧
      (startGenerating s).editedImage = none) ∧
    (match o with
     | .serviceOk img =>
         (handleGenerate s o).1.editedImage =
           some (editedDataURL f.type img) ∧
         (handleGenerate s o).1.error = none
     | _ =>
         (handleGenerate s o).1.error = some genFailMsg ∧
         (handleGenerate s o).1.editedImage = none) := by
  refine ⟨⟨rfl, rfl⟩, ?_⟩
  cases o <;>
    simp [handleGenerate, hf, hp, resolveGenerate, startGenerating]

/-- Witness for C3 at the concrete ready state and a successful service
outcome. -/
theorem generate_result_error_exclusive_witness :
    ((startGenerating readyState).error = none ∧
      (startGenerating readyState).editedImage = none) ∧
    ((handleGenerate readyState (.serviceOk ("QUJD"))).1.editedImage =
        some (editedDataURL ("image/png") ("QUJD")) ∧
      (handleGenerate readyState (.serviceOk ("QUJD"))).1.error = none) :=
  generate_result_error_exclusive readyState sampleFile (.serviceOk ("QUJD"))
    rfl (by decide)

/-- Claim C4: along every sequence of session transitions from page load,
`isLoading` is true exactly while a dispatched Generate request is pending,
i.e. strictly between its dispatch and its resolution. -/
theorem inflight_iff_generating (sess : Session) (h : Reachable sess) :
    sess.ui.isLoading = true ↔ sess.pending.isSome := by
  induction h with
  | init => simp [initSession, initState]
  | step hr hs ih =>
      cases hs with
      | upload f readOk ho =>
          simpa [handleImageUpload_isLoading] using ih
      | editPrompt t hl => simpa using ih
      | reset => simpa [handleReset] using ih
      | dispatch f hd hf => simp [startGenerating]
      | resolve f o hp => cases o <;> simp [resolveGenerate]

/-- A session reached by uploading `sampleFile`, typing a prompt and
dispatching a generate request. -/
def generatingSession : Session :=
  { ui := startGenerating
      { initState with
          originalImage := some (fileToBase64 sampleFile),
          originalFile := some sampleFile, prompt := "add a hat" },
    pending := some sampleFile }

/-- `generatingSession` is reachable: upload, edit the prompt, dispatch. -/
theorem generatingSession_reachable : Reachable generatingSession := by
  have h1 : Reachable (Session.mk
      (handleImageUpload initSession.ui (some sampleFile) true)
      initSession.pending) :=
    Reachable.step Reachable.init
      (SStep.upload initSession sampleFile true rfl)
  have h2 := Reachable.step h1 (SStep.editPrompt _ ("add a hat") rfl)
  exact Reachable.step h2 (SStep.dispatch _ sampleFile (by decide) rfl)

/-- Witness for C4 at a concrete reachable in-flight session. -/
theorem inflight_iff_generating_witness :
    (generatingSession.ui.isLoading = true ↔
      generatingSession.pending.isSome) :=
  inflight_iff_generating generatingSession generatingSession_reachable

/-- Claim C5: a dispatched Generate request clears the in-flight flag
unconditionally on resolution — every branch of `resolveGenerate` (encode
failure, service failure, service success) leaves `isLoading` false, and so
does `handleGenerate` past its guard on every outcome. -/
theorem resolution_clears_inflight :
    (∀ (s : AppState) (f : FileV) (o : GenOutcome),
        (resolveGenerate s f o).isLoading = false) ∧
    (∀ (s : AppState) (f : FileV) (o : GenOutcome),
        s.originalFile = some f → s.prompt ≠ "" →
        (handleGenerate s o).1.isLoading = false) := by
  constructor
  · intro s f o
    cases o <;> rfl
  · intro s f o hf hp
    cases o <;> simp [handleGenerate, hf, hp, resolveGenerate]

/-- Witness for C5 at the concrete ready state and an encoding failure. -/
theorem resolution_clears_inflight_witness :
    (handleGenerate readyState .encodeFail).1.isLoading = false :=
  resolution_clears_inflight.2 readyState sampleFile .encodeFail rfl
    (by decide)

/-- Claim C6: reset from any session state yields the empty state — the
preview image, the stored file, the result, the prompt and the error are
all cleared. -/
theorem reset_clears_all (s : AppState) :
    (handleReset s).originalImage = none ∧
    (handleReset s).originalFile = none ∧
    (handleReset s).editedImage = none ∧
    (handleReset s).prompt = "" ∧
    (handleReset s).error = none :=
  ⟨rfl, rfl, rfl, rfl, rfl⟩

/-- A sample state holding a previous preview, a previous result and a
prompt, from which a failing upload is attempted. -/
def staleState : AppState :=
  { originalImage := some (fileToBase64 sampleFile),
    originalFile := some sampleFile,
    editedImage := some (editedDataURL ("image/png") ("QUJD")),
    prompt := "add a hat", isLoading := false, error := none }

/-- A second sample file, whose read is taken to fail. -/
def badFile : FileV :=
  { content := [255], type := "image/gif" }

/-- Counterexample to claim C7: when the file read fails, the error is
reported, but the session does not perform a full clear — the preview image
is still present (and the prompt and the newly chosen file are kept as
well). -/
theorem upload_failure_full_clear_counterexample :
    (handleImageUpload staleState (some badFile) false).error =
        some loadFailMsg ∧
    (handleImageUpload staleState (some badFile) false).originalImage ≠
        none ∧
    (handleImageUpload staleState (some badFile) false).originalFile =
        some badFile ∧
    (handleImageUpload staleState (some badFile) false).prompt ≠ "" := by
  decide

/-- Claim C7 as amended: when the selected file cannot be read, the load
error message is reported and the prior result is cleared, but no full
clear happens — the newly chosen file stays stored, and the preview image,
the prompt and the loading flag are unchanged. -/
theorem upload_failure_reports_error (s : AppState) (f : FileV) :
    (handleImageUpload s (some f) false).error = some loadFailMsg ∧
    (handleImageUpload s (some f) false).editedImage = none ∧
    (handleImageUpload s (some f) false).originalFile = some f ∧
    (handleImageUpload s (some f) false).originalImage = s.originalImage ∧
    (handleImageUpload s (some f) false).prompt = s.prompt ∧
    (handleImageUpload s (some f) false).isLoading = s.isLoading :=
  ⟨rfl, rfl, rfl, rfl, rfl, rfl⟩

/-- Claim C8: the encoder round-trips — decoding the base64 encoding of any
byte list reproduces it exactly. -/
theorem base64_roundtrip (bs : List Nat) (h : ∀ b ∈ bs, b < 256) :
    decodeBase64 (encodeBase64 bs) = some bs := by
  simpa [decodeBase64, encodeBase64] using
    decodeB64Chars_encodeB64Chars bs h

/-- Witness for C8 on the three sample bytes. -/
theorem base64_roundtrip_witness :
    decodeBase64 (encodeBase64 [72, 105, 33]) = some [72, 105, 33] :=
  base64_roundtrip [72, 105, 33] (by decide)

/-- Counterexample to claim C9: past its guard, `handleGenerate` makes zero
calls — not exactly one — to the external edit service when encoding the
file fails before the call. -/
theorem generate_single_call_counterexample :
    readyState.originalFile = some sampleFile ∧ readyState.prompt ≠ "" ∧
    (handleGenerate readyState .encodeFail).2.length = 0 := by
  decide

/-- Claim C9 as amended: past its guard, `handleGenerate` makes at most one
call to the external edit service — exactly one whenever the file encoding
succeeds, with no retry on service failure and no second call on success,
and none when encoding fails before the call. -/
theorem generate_at_most_one_call (s : AppState) (f : FileV)
    (o : GenOutcome) (hf : s.originalFile = some f) (hp : s.prompt ≠ "") :
    (handleGenerate s o).2 =
      (match o with
       | .encodeFail => []
       | _ => [{ base64Data := ((fileToBase64 f).splitOn (",")).getD 1 "",
                 mimeType := f.type, prompt := s.prompt }]) ∧
    (handleGenerate s o).2.length ≤ 1 := by
  cases o <;> simp [handleGenerate, hf, hp, genCalls]

/-- Witness for C9 as amended, at the concrete ready state and a failing
service call. -/
theorem generate_at_most_one_call_witness :
    (handleGenerate readyState .serviceFail).2 =
      [{ base64Data := ((fileToBase64 sampleFile).splitOn (",")).getD 1 "",
         mimeType := "image/png", prompt := "add a hat" }] ∧
    (handleGenerate readyState .serviceFail).2.length ≤ 1 :=
  generate_at_most_one_call readyState sampleFile .serviceFail rfl
    (by decide)

/-- Claim C10: selecting a new image preserves the prompt text — for every
state, file and read outcome, `handleImageUpload` leaves `prompt`
unchanged, clears the prior result, stores the new file, and on a
successful read clears the error and replaces the preview. -/
theorem upload_preserves_prompt (s : AppState) (f : FileV)
    (readOk : Bool) :
    (handleImageUpload s (some f) readOk).prompt = s.prompt ∧
    (handleImageUpload s (some f) readOk).editedImage = none ∧
    (handleImageUpload s (some f) readOk).originalFile = some f ∧
    (handleImageUpload s (some f) readOk).error =
      (if readOk then none else some loadFailMsg) ∧
    (handleImageUpload s (some f) readOk).originalImage =
      (if readOk then some (fileToBase64 f) else s.originalImage) := by
  cases readOk <;> exact ⟨rfl, rfl, rfl, rfl, rfl⟩
